import Mathlib

/-!
# The graph engine of math_viz_revised

A shallow embedding of `src/graphs/graph.c` and `src/gfx/vbo.c`.

* The engine structure `struct Graph` becomes the record `Graph`; every C function that
  mutates `*self` becomes a function returning the new record.
* Calls that leave the two source files (OpenGL, the renderer, the vertex-array module and
  the per-variant modules `bezier_*`, `linear_*`, `quadratic_*`, `cubic_*`) are recorded, in
  program order, in a call log of type `List Call` returned next to the new record.
* The per-variant modules are not among the sources. Their functions are parameters
  (`Hooks`): the variants hold a pointer to the engine (`bezier_init(self)`), so a hook is an
  arbitrary function on the whole engine record.
* The file system is explicit state: a map from paths to the bytes of the file.
* `enum GraphState` is stored as a 32-bit word; its four constants are declared in `graph.h`,
  which is not among the sources, and are parameters (`GraphStateTags`).
-/

namespace MathViz

/-! ## Data model -/

/-- The four curve variants; used to name the variant a logged hook call belongs to. -/
inductive Variant where
  | bezier
  | linear
  | quadratic
  | cubic
  deriving DecidableEq, Repr

/-- The numeric values of the four constants of `enum GraphState` (declared in `graph.h`). -/
structure GraphStateTags where
  GraphState_bezier : Nat
  GraphState_linear : Nat
  GraphState_quadratic : Nat
  GraphState_cubic : Nat
  deriving DecidableEq, Repr

/-- The tag constant that belongs to a variant. -/
def GraphStateTags.tag (tags : GraphStateTags) : Variant → Nat
  | Variant.bezier => tags.GraphState_bezier
  | Variant.linear => tags.GraphState_linear
  | Variant.quadratic => tags.GraphState_quadratic
  | Variant.cubic => tags.GraphState_cubic

/-- The four constants are pairwise different: they are the case labels of one `switch`
in `graph_update` and in `graph_render`, and C rejects duplicate case labels. -/
def GraphStateTags.Distinct (tags : GraphStateTags) : Prop :=
  tags.GraphState_bezier ≠ tags.GraphState_linear ∧
  tags.GraphState_bezier ≠ tags.GraphState_quadratic ∧
  tags.GraphState_bezier ≠ tags.GraphState_cubic ∧
  tags.GraphState_linear ≠ tags.GraphState_quadratic ∧
  tags.GraphState_linear ≠ tags.GraphState_cubic ∧
  tags.GraphState_quadratic ≠ tags.GraphState_cubic

instance (tags : GraphStateTags) : Decidable tags.Distinct := by
  unfold GraphStateTags.Distinct; infer_instance

/-- The four constants fit the four bytes of an `enum GraphState` object. -/
def GraphStateTags.InRange (tags : GraphStateTags) : Prop :=
  tags.GraphState_bezier < 2 ^ 32 ∧ tags.GraphState_linear < 2 ^ 32 ∧
  tags.GraphState_quadratic < 2 ^ 32 ∧ tags.GraphState_cubic < 2 ^ 32

instance (tags : GraphStateTags) : Decidable tags.InRange := by
  unfold GraphStateTags.InRange; infer_instance

/-- A state word is valid when it is one of the four tag constants. -/
def GraphStateTags.Valid (tags : GraphStateTags) (s : Nat) : Prop :=
  s = tags.GraphState_linear ∨ s = tags.GraphState_quadratic ∨
  s = tags.GraphState_cubic ∨ s = tags.GraphState_bezier

instance (tags : GraphStateTags) (s : Nat) : Decidable (tags.Valid s) := by
  unfold GraphStateTags.Valid; infer_instance

/-- Mirror of `struct VBO` as `vbo.c` uses it: GL buffer name, binding target, usage flag. -/
structure VBO where
  handle : Nat
  type : Nat
  dynamic : Bool
  deriving DecidableEq, Repr

/-- Mirror of `struct VAO`: the name of the vertex array object. -/
structure VAO where
  handle : Nat
  deriving DecidableEq, Repr

/-- Mirror of `struct Graph`, with the fields that `graph.c` reads or writes. `V` is the
data of one curve variant. `vertices` holds the words of the `f32` scratch array and
`indices` those of the `u32` scratch array. -/
structure Graph (V : Type) where
  bezier : V
  linear : V
  quadratic : V
  cubic : V
  state : Nat
  vao : VAO
  vbo : VBO
  ibo : VBO
  mesh_change_this_frame : Bool
  vertices : List Nat
  indices : List Nat
  vertex_count : Nat
  index_count : Nat
  deriving DecidableEq, Repr

/-- One key of `struct Keyboard`; `graph.c` reads only `pressed`. -/
structure Key where
  pressed : Bool
  deriving DecidableEq, Repr

/-- Mirror of `struct Keyboard`: the array `keys`, indexed by GLFW key code. -/
structure Keyboard where
  keys : Nat → Key

/-- A call that leaves `graph.c` and `vbo.c`, with the arguments that matter here. -/
inductive Call where
  | glGenBuffers (handle : Nat)
  | glDeleteBuffers (handle : Nat)
  | glBindBuffer (target handle : Nat)
  | glBufferData (target size : Nat) (data : List Nat) (usage : Nat)
  | glEnable (cap : Nat)
  | glDisable (cap : Nat)
  | glDrawElements (mode count type : Nat)
  | vao_create (handle : Nat)
  | vao_destroy (handle : Nat)
  | vao_attr (vao vbo index size type stride offset : Nat)
  | vao_bind (handle : Nat)
  | renderer_use_shader
  | renderer_set_view_proj
  | shader_uniform_mat4
  | shader_uniform_vec4
  | init (v : Variant)
  | destroy (v : Variant)
  | state_change (v : Variant)
  | update (v : Variant)
  | mesh (v : Variant)
  deriving DecidableEq, Repr

/-- The functions of the four variant modules that `graph.c` calls. The constructors return
the variant data that `graph_init` stores; the other hooks may rewrite the engine record
through the engine pointer the variant keeps; the input a hook reads besides the engine
(mouse, keyboard) is fixed within a frame and is part of the function. The `*_destroy`
functions release memory only and appear in the call log alone. -/
structure Hooks (V : Type) where
  bezier_init : Graph V → V
  linear_init : Graph V → V
  quadratic_init : Graph V → V
  cubic_init : Graph V → V
  bezier_state_change : Graph V → Graph V
  linear_state_change : Graph V → Graph V
  quadratic_state_change : Graph V → Graph V
  cubic_state_change : Graph V → Graph V
  bezier_update : Graph V → Graph V
  linear_update : Graph V → Graph V
  quadratic_update : Graph V → Graph V
  cubic_update : Graph V → Graph V
  bezier_mesh : Graph V → Graph V
  linear_mesh : Graph V → Graph V
  quadratic_mesh : Graph V → Graph V
  cubic_mesh : Graph V → Graph V

/-- The state-entry hook of a variant. -/
def Hooks.state_change {V : Type} (hooks : Hooks V) : Variant → Graph V → Graph V
  | Variant.bezier => hooks.bezier_state_change
  | Variant.linear => hooks.linear_state_change
  | Variant.quadratic => hooks.quadratic_state_change
  | Variant.cubic => hooks.cubic_state_change

/-- The per-frame update hook of a variant. -/
def Hooks.update {V : Type} (hooks : Hooks V) : Variant → Graph V → Graph V
  | Variant.bezier => hooks.bezier_update
  | Variant.linear => hooks.linear_update
  | Variant.quadratic => hooks.quadratic_update
  | Variant.cubic => hooks.cubic_update

/-- The mesh-emission hook of a variant. -/
def Hooks.mesh {V : Type} (hooks : Hooks V) : Variant → Graph V → Graph V
  | Variant.bezier => hooks.bezier_mesh
  | Variant.linear => hooks.linear_mesh
  | Variant.quadratic => hooks.quadratic_mesh
  | Variant.cubic => hooks.cubic_mesh

/-- Modelled from the spec: the variant modules (`bezier.c` and its three siblings) are not
among the sources. The spec makes `handle_input` the only writer of `active_state`; a
state-entry hook "may reset internal control points, selection cursor, etc." and leaves the
tag alone. -/
def Hooks.StateChangeKeepsTag {V : Type} (hooks : Hooks V) : Prop :=
  ∀ (v : Variant) (g : Graph V), (hooks.state_change v g).state = g.state

/-- Modelled from the spec: the variant modules are not among the sources. The per-frame
update of a variant "consumes input" and "MAY set the engine's dirty flag"; it leaves the
tag alone. -/
def Hooks.UpdateKeepsTag {V : Type} (hooks : Hooks V) : Prop :=
  ∀ (v : Variant) (g : Graph V), (hooks.update v g).state = g.state

/-- Modelled from the spec: the variant modules are not among the sources. Mesh emission
"appends a tessellated polyline" into the scratch arrays, "advancing its vertex/index
counts"; it leaves the tag alone. -/
def Hooks.MeshKeepsTag {V : Type} (hooks : Hooks V) : Prop :=
  ∀ (v : Variant) (g : Graph V), (hooks.mesh v g).state = g.state

def GL_ARRAY_BUFFER : Nat := 0x8892
def GL_ELEMENT_ARRAY_BUFFER : Nat := 0x8893
def GL_STATIC_DRAW : Nat := 0x88E4
def GL_DYNAMIC_DRAW : Nat := 0x88E8
def GL_FLOAT : Nat := 0x1406
def GL_UNSIGNED_INT : Nat := 0x1405
def GL_LINES : Nat := 0x0001
def GL_MULTISAMPLE : Nat := 0x809D
def GLFW_KEY_1 : Nat := 49
def GLFW_KEY_2 : Nat := 50
def GLFW_KEY_3 : Nat := 51
def GLFW_KEY_4 : Nat := 52

/-- The value of `sizeof(f32)`. -/
def sizeof_f32 : Nat := 4
/-- The value of `sizeof(u32)`. -/
def sizeof_u32 : Nat := 4
/-- The value of `sizeof(enum GraphState)`: an enumeration is stored as an `int`. -/
def sizeof_GraphState : Nat := 4

/-- The macro `GRAPH_DATA_FILEPATH`. -/
def GRAPH_DATA_FILEPATH : String := "graphs.mdat"

/-! ## File system -/

/-- The file system: the bytes of the file at a path, `none` when no file is there. -/
abbrev FileSystem := String → Option (List Nat)

/-- The effect of `fopen(path, "w")`, `fwrite` of `bytes`, `fclose`: the file at `path` is
created or truncated and then holds exactly `bytes`. -/
def FileSystem.write (fs : FileSystem) (path : String) (bytes : List Nat) : FileSystem :=
  fun p => if p = path then some bytes else fs p

/-- Modelled from the spec: `filesystem_file_exists` is declared outside the sources; it
tells whether a persisted file is present ("absence of the file is not an error"). -/
def filesystem_file_exists (fs : FileSystem) (path : String) : Bool :=
  (fs path).isSome

/-- The bytes a stream opened with `fopen(path, "r")` delivers. -/
def fopen_r (fs : FileSystem) (path : String) : List Nat :=
  (fs path).getD []

/-- The object representation of a 32-bit word, least significant byte first. -/
def le_bytes (n : Nat) : List Nat :=
  [n % 256, n / 256 % 256, n / 65536 % 256, n / 16777216 % 256]

/-- The word whose object representation is the given bytes, least significant first. -/
def le_word : List Nat → Nat
  | [] => 0
  | b :: bs => b % 256 + 256 * le_word bs

/-- The effect of `fread(&self->state, sizeof(enum GraphState), 1, file)` on the state word:
the stream's bytes, at most four, overwrite the object representation from its first byte
on. A file of four or more bytes replaces the whole word; a shorter file replaces only the
bytes it has. -/
def fread_GraphState (old : Nat) (file : List Nat) : Nat :=
  let got := file.take sizeof_GraphState
  le_word (got ++ (le_bytes old).drop got.length)

/-- The effect of `fwrite(&self->state, sizeof(enum GraphState), 1, file)`: the four bytes
of the state word. -/
def fwrite_GraphState (state : Nat) : List Nat :=
  le_bytes (state % 2 ^ 32)

/-! ## vbo.c -/

/-- The names the GL driver hands out to `graph_init`: one per `vao_create` and
`glGenBuffers` call. -/
structure GLNames where
  vao : Nat
  vbo : Nat
  ibo : Nat
  deriving DecidableEq, Repr

/-- Embedding of `vbo_create`; `handle` is the name `glGenBuffers` stores. -/
def vbo_create (handle : Nat) (type : Nat) (dynamic : Bool) : VBO × List Call :=
  ({ handle := handle, type := type, dynamic := dynamic }, [Call.glGenBuffers handle])

/-- Embedding of `vbo_destroy`. -/
def vbo_destroy (self : VBO) : List Call :=
  [Call.glDeleteBuffers self.handle]

/-- Embedding of `vbo_bind`. -/
def vbo_bind (self : VBO) : List Call :=
  [Call.glBindBuffer self.type self.handle]

/-- Embedding of `vbo_buffer`: `offset` and `count` are `u64`, and so is `count - offset`. -/
def vbo_buffer (self : VBO) (data : List Nat) (offset count : Nat) : List Call :=
  vbo_bind self ++
    [Call.glBufferData self.type ((count % 2 ^ 64 + 2 ^ 64 - offset % 2 ^ 64) % 2 ^ 64) data
      (if self.dynamic then GL_DYNAMIC_DRAW else GL_STATIC_DRAW)]

/-! ## graph.c -/

/-- Embedding of `graph_deserialize`. -/
def graph_deserialize {V : Type} (fs : FileSystem) (self : Graph V) : Graph V :=
  if filesystem_file_exists fs GRAPH_DATA_FILEPATH then
    let file := fopen_r fs GRAPH_DATA_FILEPATH
    { self with state := fread_GraphState self.state file }
  else self

/-- Embedding of `graph_init`. -/
def graph_init {V : Type} (tags : GraphStateTags) (hooks : Hooks V) (names : GLNames)
    (fs : FileSystem) (self : Graph V) : Graph V × List Call :=
  let self := { self with bezier := hooks.bezier_init self }
  let self := { self with linear := hooks.linear_init self }
  let self := { self with quadratic := hooks.quadratic_init self }
  let self := { self with cubic := hooks.cubic_init self }
  let self := { self with state := tags.GraphState_quadratic }
  let self := { self with vao := { handle := names.vao } }
  let vbo := vbo_create names.vbo GL_ARRAY_BUFFER false
  let self := { self with vbo := vbo.1 }
  let ibo := vbo_create names.ibo GL_ELEMENT_ARRAY_BUFFER false
  let self := { self with ibo := ibo.1 }
  (graph_deserialize fs self,
    [Call.init Variant.bezier, Call.init Variant.linear, Call.init Variant.quadratic,
      Call.init Variant.cubic, Call.vao_create names.vao] ++ vbo.2 ++ ibo.2)

/-- Embedding of `graph_serialize`. -/
def graph_serialize {V : Type} (fs : FileSystem) (self : Graph V) : FileSystem :=
  fs.write GRAPH_DATA_FILEPATH (fwrite_GraphState self.state)

/-- Embedding of `graph_destroy`: the file system it leaves and the calls it makes. -/
def graph_destroy {V : Type} (fs : FileSystem) (self : Graph V) : FileSystem × List Call :=
  (graph_serialize fs self,
    [Call.vao_destroy self.vao.handle] ++ vbo_destroy self.vbo ++ vbo_destroy self.ibo ++
      [Call.destroy Variant.bezier, Call.destroy Variant.linear,
        Call.destroy Variant.quadratic, Call.destroy Variant.cubic])

/-- Embedding of `graph_resized`. -/
def graph_resized {V : Type} (self : Graph V) : Graph V :=
  { self with mesh_change_this_frame := true }

/-- Embedding of `graph_mesh_prepare`. -/
def graph_mesh_prepare {V : Type} (self : Graph V) : Graph V :=
  { self with vertex_count := 0, index_count := 0 }

/-- Embedding of `graph_handle_inputs`; `keyboard` is the copy of `state.window->keyboard`. -/
def graph_handle_inputs {V : Type} (tags : GraphStateTags) (hooks : Hooks V)
    (keyboard : Keyboard) (self : Graph V) : Graph V × List Call :=
  if (keyboard.keys GLFW_KEY_3).pressed then
    (hooks.bezier_state_change { self with state := tags.GraphState_bezier },
      [Call.state_change Variant.bezier])
  else if (keyboard.keys GLFW_KEY_1).pressed then
    (hooks.linear_state_change { self with state := tags.GraphState_linear },
      [Call.state_change Variant.linear])
  else if (keyboard.keys GLFW_KEY_2).pressed then
    (hooks.quadratic_state_change { self with state := tags.GraphState_quadratic },
      [Call.state_change Variant.quadratic])
  else if (keyboard.keys GLFW_KEY_4).pressed then
    (hooks.cubic_state_change { self with state := tags.GraphState_cubic },
      [Call.state_change Variant.cubic])
  else (self, [])

/-- Embedding of `graph_update`; the `switch` takes the first matching label, else
`default`. -/
def graph_update {V : Type} (tags : GraphStateTags) (hooks : Hooks V)
    (keyboard : Keyboard) (self : Graph V) : Graph V × List Call :=
  let r := graph_handle_inputs tags hooks keyboard self
  let self := r.1
  if self.state = tags.GraphState_bezier then
    (hooks.bezier_update self, r.2 ++ [Call.update Variant.bezier])
  else if self.state = tags.GraphState_linear then
    (hooks.linear_update self, r.2 ++ [Call.update Variant.linear])
  else if self.state = tags.GraphState_quadratic then
    (hooks.quadratic_update self, r.2 ++ [Call.update Variant.quadratic])
  else if self.state = tags.GraphState_cubic then
    (hooks.cubic_update self, r.2 ++ [Call.update Variant.cubic])
  else
    (hooks.bezier_update self, r.2 ++ [Call.update Variant.bezier])

/-- The rebuild block of `graph_render`, lines 104 to 124: runs only when the flag is set. -/
def graph_render_rebuild {V : Type} (tags : GraphStateTags) (hooks : Hooks V)
    (self : Graph V) : Graph V × List Call :=
  if self.mesh_change_this_frame then
    let self := graph_mesh_prepare self
    let r : Graph V × List Call :=
      if self.state = tags.GraphState_bezier then
        (hooks.bezier_mesh self, [Call.mesh Variant.bezier])
      else if self.state = tags.GraphState_linear then
        (hooks.linear_mesh self, [Call.mesh Variant.linear])
      else if self.state = tags.GraphState_quadratic then
        (hooks.quadratic_mesh self, [Call.mesh Variant.quadratic])
      else if self.state = tags.GraphState_cubic then
        (hooks.cubic_mesh self, [Call.mesh Variant.cubic])
      else
        (hooks.bezier_mesh self, [Call.mesh Variant.bezier])
    ({ r.1 with mesh_change_this_frame := false }, r.2)
  else (self, [])

/-- The upload and draw block of `graph_render`, lines 126 to 137. The byte counts are
`size_t` products; the element count of `glDrawElements` is a 32-bit `GLsizei`. -/
def graph_render_draw {V : Type} (self : Graph V) : List Call :=
  vbo_buffer self.vbo self.vertices 0 ((sizeof_f32 * self.vertex_count) % 2 ^ 64) ++
  vbo_buffer self.ibo self.indices 0 ((sizeof_u32 * self.index_count) % 2 ^ 64) ++
  [Call.vao_attr self.vao.handle self.vbo.handle 0 2 GL_FLOAT (sizeof_f32 * 2) 0,
    Call.vao_bind self.vao.handle] ++
  vbo_bind self.ibo ++
  [Call.glDrawElements GL_LINES (self.index_count % 2 ^ 32) GL_UNSIGNED_INT,
    Call.glDisable GL_MULTISAMPLE]

/-- Embedding of `graph_render`. -/
def graph_render {V : Type} (tags : GraphStateTags) (hooks : Hooks V)
    (self : Graph V) : Graph V × List Call :=
  let head := [Call.glEnable GL_MULTISAMPLE, Call.renderer_use_shader,
    Call.renderer_set_view_proj, Call.shader_uniform_mat4, Call.shader_uniform_vec4]
  let r := graph_render_rebuild tags hooks self
  (r.1, head ++ r.2 ++ graph_render_draw r.1)

/-! ## Reading the call log -/

/-- The variants whose state-entry hook a call log invokes, in order. -/
def stateChangeCalls : List Call → List Variant
  | [] => []
  | Call.state_change v :: cs => v :: stateChangeCalls cs
  | _ :: cs => stateChangeCalls cs

/-- The variants whose per-frame update a call log invokes, in order. -/
def updateCalls : List Call → List Variant
  | [] => []
  | Call.update v :: cs => v :: updateCalls cs
  | _ :: cs => updateCalls cs

/-- The variants whose mesh emission a call log invokes, in order. -/
def meshCalls : List Call → List Variant
  | [] => []
  | Call.mesh v :: cs => v :: meshCalls cs
  | _ :: cs => meshCalls cs

/-- The byte lengths a call log hands to `glBufferData` for a binding target, in order. -/
def uploadSizes (target : Nat) : List Call → List Nat
  | [] => []
  | Call.glBufferData t size _ _ :: cs =>
      if t = target then size :: uploadSizes target cs else uploadSizes target cs
  | _ :: cs => uploadSizes target cs

/-- A numbering of the four tags, in the order the spec lists them. -/
def sampleTags : GraphStateTags :=
  { GraphState_linear := 0, GraphState_quadratic := 1, GraphState_cubic := 2,
    GraphState_bezier := 3 }

/-- Variant modules with one counter as variant data: the constructors return 0, the
state-entry hooks reset the counter and set the dirty flag, the updates count frames, and
mesh emission appends the two end points and the index pair of one line segment. -/
def sampleHooks : Hooks Nat :=
  { bezier_init := fun _ => 0
    linear_init := fun _ => 0
    quadratic_init := fun _ => 0
    cubic_init := fun _ => 0
    bezier_state_change := fun g => { g with bezier := 0, mesh_change_this_frame := true }
    linear_state_change := fun g => { g with linear := 0, mesh_change_this_frame := true }
    quadratic_state_change := fun g =>
      { g with quadratic := 0, mesh_change_this_frame := true }
    cubic_state_change := fun g => { g with cubic := 0, mesh_change_this_frame := true }
    bezier_update := fun g => { g with bezier := g.bezier + 1 }
    linear_update := fun g => { g with linear := g.linear + 1 }
    quadratic_update := fun g => { g with quadratic := g.quadratic + 1 }
    cubic_update := fun g => { g with cubic := g.cubic + 1 }
    bezier_mesh := fun g =>
      { g with vertices := [0, 0, 3, 3], indices := [0, 1],
               vertex_count := g.vertex_count + 2, index_count := g.index_count + 2 }
    linear_mesh := fun g =>
      { g with vertices := [0, 0, 1, 1], indices := [0, 1],
               vertex_count := g.vertex_count + 2, index_count := g.index_count + 2 }
    quadratic_mesh := fun g =>
      { g with vertices := [0, 0, 2, 2], indices := [0, 1],
               vertex_count := g.vertex_count + 2, index_count := g.index_count + 2 }
    cubic_mesh := fun g =>
      { g with vertices := [0, 0, 4, 4], indices := [0, 1],
               vertex_count := g.vertex_count + 2, index_count := g.index_count + 2 } }

/-- An engine structure whose bytes are all zero, as static or `calloc` storage is. -/
def zeroGraph : Graph Nat :=
  { bezier := 0, linear := 0, quadratic := 0, cubic := 0, state := 0,
    vao := { handle := 0 },
    vbo := { handle := 0, type := 0, dynamic := false },
    ibo := { handle := 0, type := 0, dynamic := false },
    mesh_change_this_frame := false, vertices := [], indices := [],
    vertex_count := 0, index_count := 0 }

/-- Names a GL driver may hand out. -/
def sampleNames : GLNames := { vao := 1, vbo := 1, ibo := 2 }

/-- A file system without any file. -/
def emptyFs : FileSystem := fun _ => none

/-- A file system whose persisted file holds the four bytes of the word 7. -/
def staleFs : FileSystem := emptyFs.write GRAPH_DATA_FILEPATH [7, 0, 0, 0]

/-- A keyboard on which exactly the listed keys are pressed this frame. -/
def keyboardOf (ks : List Nat) : Keyboard :=
  { keys := fun k => { pressed := decide (k ∈ ks) } }

/-- An engine as it is in the middle of a session: Cubic is active, one line segment is in
the scratch arrays and the mesh is up to date. -/
def runningGraph : Graph Nat :=
  { bezier := 0, linear := 0, quadratic := 0, cubic := 5, state := 2,
    vao := { handle := 1 },
    vbo := { handle := 1, type := GL_ARRAY_BUFFER, dynamic := false },
    ibo := { handle := 2, type := GL_ELEMENT_ARRAY_BUFFER, dynamic := false },
    mesh_change_this_frame := false, vertices := [0, 0, 4, 4], indices := [0, 1],
    vertex_count := 2, index_count := 2 }

/-! ## Lemmas on the model -/

theorem le_word_le_bytes (n : Nat) : le_word (le_bytes n) = n % 2 ^ 32 := by
  simp only [le_bytes, le_word]
  omega

theorem fread_GraphState_full (old n : Nat) (rest : List Nat) :
    fread_GraphState old (le_bytes n ++ rest) = n % 2 ^ 32 := by
  have h : fread_GraphState old (le_bytes n ++ rest) = le_word (le_bytes n) := by
    simp [fread_GraphState, le_bytes, sizeof_GraphState]
  rw [h, le_word_le_bytes]

theorem fread_GraphState_empty (old : Nat) (h : old < 2 ^ 32) :
    fread_GraphState old [] = old := by
  have h2 : fread_GraphState old [] = le_word (le_bytes old) := by
    simp [fread_GraphState, sizeof_GraphState]
  rw [h2, le_word_le_bytes]
  omega

theorem graph_init_state {V : Type} (tags : GraphStateTags) (hooks : Hooks V)
    (names : GLNames) (fs : FileSystem) (self : Graph V) :
    (graph_init tags hooks names fs self).1.state =
      if filesystem_file_exists fs GRAPH_DATA_FILEPATH then
        fread_GraphState tags.GraphState_quadratic (fopen_r fs GRAPH_DATA_FILEPATH)
      else tags.GraphState_quadratic := by
  simp only [graph_init, graph_deserialize]
  split <;> rfl

theorem tag_lt_of_inRange (tags : GraphStateTags) (h : tags.InRange) (v : Variant) :
    tags.tag v < 2 ^ 32 := by
  obtain ⟨h1, h2, h3, h4⟩ := h
  cases v <;> simpa [GraphStateTags.tag]

theorem tag_valid (tags : GraphStateTags) (v : Variant) : tags.Valid (tags.tag v) := by
  cases v <;> simp [GraphStateTags.tag, GraphStateTags.Valid]

theorem valid_iff_tag (tags : GraphStateTags) (s : Nat) :
    tags.Valid s ↔ ∃ v, s = tags.tag v := by
  constructor
  · rintro (h | h | h | h)
    · exact ⟨Variant.linear, h⟩
    · exact ⟨Variant.quadratic, h⟩
    · exact ⟨Variant.cubic, h⟩
    · exact ⟨Variant.bezier, h⟩
  · rintro ⟨v, rfl⟩
    exact tag_valid tags v

/-! ## Input handling -/

/-- C1: `graph_handle_inputs` selects by fixed priority: key 3 gives Bezier, else key 1
gives Linear, else key 2 gives Quadratic, else key 4 gives Cubic; with no key the engine is
unchanged. In a pressed case the only call made is the state-entry hook of the selected
variant, applied to the engine with the new tag stored; with no key no call is made. -/
theorem graph_handle_inputs_priority {V : Type} (tags : GraphStateTags) (hooks : Hooks V)
    (keyboard : Keyboard) (self : Graph V) (hk : hooks.StateChangeKeepsTag) :
    ((keyboard.keys GLFW_KEY_3).pressed = true →
      (graph_handle_inputs tags hooks keyboard self).1.state = tags.GraphState_bezier ∧
      (graph_handle_inputs tags hooks keyboard self).1 =
        hooks.bezier_state_change { self with state := tags.GraphState_bezier } ∧
      (graph_handle_inputs tags hooks keyboard self).2 =
        [Call.state_change Variant.bezier]) ∧
    ((keyboard.keys GLFW_KEY_3).pressed = false →
      (keyboard.keys GLFW_KEY_1).pressed = true →
      (graph_handle_inputs tags hooks keyboard self).1.state = tags.GraphState_linear ∧
      (graph_handle_inputs tags hooks keyboard self).1 =
        hooks.linear_state_change { self with state := tags.GraphState_linear } ∧
      (graph_handle_inputs tags hooks keyboard self).2 =
        [Call.state_change Variant.linear]) ∧
    ((keyboard.keys GLFW_KEY_3).pressed = false →
      (keyboard.keys GLFW_KEY_1).pressed = false →
      (keyboard.keys GLFW_KEY_2).pressed = true →
      (graph_handle_inputs tags hooks keyboard self).1.state = tags.GraphState_quadratic ∧
      (graph_handle_inputs tags hooks keyboard self).1 =
        hooks.quadratic_state_change { self with state := tags.GraphState_quadratic } ∧
      (graph_handle_inputs tags hooks keyboard self).2 =
        [Call.state_change Variant.quadratic]) ∧
    ((keyboard.keys GLFW_KEY_3).pressed = false →
      (keyboard.keys GLFW_KEY_1).pressed = false →
      (keyboard.keys GLFW_KEY_2).pressed = false →
      (keyboard.keys GLFW_KEY_4).pressed = true →
      (graph_handle_inputs tags hooks keyboard self).1.state = tags.GraphState_cubic ∧
      (graph_handle_inputs tags hooks keyboard self).1 =
        hooks.cubic_state_change { self with state := tags.GraphState_cubic } ∧
      (graph_handle_inputs tags hooks keyboard self).2 =
        [Call.state_change Variant.cubic]) ∧
    ((keyboard.keys GLFW_KEY_3).pressed = false →
      (keyboard.keys GLFW_KEY_1).pressed = false →
      (keyboard.keys GLFW_KEY_2).pressed = false →
      (keyboard.keys GLFW_KEY_4).pressed = false →
      graph_handle_inputs tags hooks keyboard self = (self, [])) := by
  refine ⟨?_, ?_, ?_, ?_, ?_⟩
  · intro h3
    have e := hk Variant.bezier { self with state := tags.GraphState_bezier }
    simp only [Hooks.state_change] at e
    simp [graph_handle_inputs, h3, e]
  · intro h3 h1
    have e := hk Variant.linear { self with state := tags.GraphState_linear }
    simp only [Hooks.state_change] at e
    simp [graph_handle_inputs, h3, h1, e]
  · intro h3 h1 h2
    have e := hk Variant.quadratic { self with state := tags.GraphState_quadratic }
    simp only [Hooks.state_change] at e
    simp [graph_handle_inputs, h3, h1, h2, e]
  · intro h3 h1 h2 h4
    have e := hk Variant.cubic { self with state := tags.GraphState_cubic }
    simp only [Hooks.state_change] at e
    simp [graph_handle_inputs, h3, h1, h2, h4, e]
  · intro h3 h1 h2 h4
    simp [graph_handle_inputs, h3, h1, h2, h4]

theorem sampleHooks_stateChangeKeepsTag : sampleHooks.StateChangeKeepsTag := by
  intro v g
  cases v <;> rfl

/-- Witness of C1: with keys 1, 3 and 4 pressed together on a running engine whose active
state is Cubic, Bezier wins and only the Bezier entry hook is called. -/
theorem graph_handle_inputs_priority_witness :
    sampleHooks.StateChangeKeepsTag ∧
    ((keyboardOf [GLFW_KEY_1, GLFW_KEY_3, GLFW_KEY_4]).keys GLFW_KEY_3).pressed = true ∧
    (graph_handle_inputs sampleTags sampleHooks
      (keyboardOf [GLFW_KEY_1, GLFW_KEY_3, GLFW_KEY_4]) runningGraph).1.state =
        sampleTags.GraphState_bezier ∧
    (graph_handle_inputs sampleTags sampleHooks
      (keyboardOf [GLFW_KEY_1, GLFW_KEY_3, GLFW_KEY_4]) runningGraph).2 =
        [Call.state_change Variant.bezier] :=
  ⟨sampleHooks_stateChangeKeepsTag, by decide,
    ((graph_handle_inputs_priority sampleTags sampleHooks
      (keyboardOf [GLFW_KEY_1, GLFW_KEY_3, GLFW_KEY_4]) runningGraph
      sampleHooks_stateChangeKeepsTag).1 (by decide)).1,
    ((graph_handle_inputs_priority sampleTags sampleHooks
      (keyboardOf [GLFW_KEY_1, GLFW_KEY_3, GLFW_KEY_4]) runningGraph
      sampleHooks_stateChangeKeepsTag).1 (by decide)).2.2⟩

/-! ## Persistence -/

/-- C2: round trip of the persisted state. For each of the four variants, `graph_destroy`
on an engine whose active state is the variant's tag, followed by `graph_init` on any fresh
engine structure against the file system that `graph_destroy` left, yields an engine whose
active state is that tag. -/
theorem graph_state_round_trip {V : Type} (tags : GraphStateTags) (hooks : Hooks V)
    (names : GLNames) (fs : FileSystem) (self fresh : Graph V) (v : Variant)
    (hr : tags.InRange) (hs : self.state = tags.tag v) :
    (graph_init tags hooks names (graph_destroy fs self).1 fresh).1.state = tags.tag v := by
  have hlt := tag_lt_of_inRange tags hr v
  have hex : filesystem_file_exists (graph_destroy fs self).1 GRAPH_DATA_FILEPATH = true := by
    simp [graph_destroy, graph_serialize, filesystem_file_exists, FileSystem.write]
  have hfile : fopen_r (graph_destroy fs self).1 GRAPH_DATA_FILEPATH =
      le_bytes (tags.tag v % 2 ^ 32) ++ [] := by
    simp [graph_destroy, graph_serialize, fopen_r, FileSystem.write, fwrite_GraphState, hs]
  rw [graph_init_state, hex, if_pos rfl, hfile, fread_GraphState_full]
  omega

/-- Witness of C2: a running engine with Cubic active is destroyed on a file system without
files; a zeroed engine initialised afterwards has Cubic active. -/
theorem graph_state_round_trip_witness :
    sampleTags.InRange ∧ runningGraph.state = sampleTags.tag Variant.cubic ∧
    (graph_init sampleTags sampleHooks sampleNames
      (graph_destroy emptyFs runningGraph).1 zeroGraph).1.state = 2 :=
  ⟨by decide, by decide,
    graph_state_round_trip sampleTags sampleHooks sampleNames emptyFs runningGraph zeroGraph
      Variant.cubic (by decide) (by decide)⟩

/-- C3: when the persisted file does not exist, `graph_init` returns an engine whose active
state is Quadratic, and `graph_deserialize` hands back the engine it was given, so the
absence has no effect and no error channel. -/
theorem graph_init_without_file {V : Type} (tags : GraphStateTags) (hooks : Hooks V)
    (names : GLNames) (fs : FileSystem) (self : Graph V)
    (hnone : fs GRAPH_DATA_FILEPATH = none) :
    (graph_init tags hooks names fs self).1.state = tags.GraphState_quadratic ∧
    (∀ g : Graph V, graph_deserialize fs g = g) := by
  have hex : filesystem_file_exists fs GRAPH_DATA_FILEPATH = false := by
    simp [filesystem_file_exists, hnone]
  constructor
  · rw [graph_init_state, hex]
    simp
  · intro g
    simp [graph_deserialize, hex]

/-- Witness of C3: a zeroed engine initialised on a file system without files has Quadratic
active. -/
theorem graph_init_without_file_witness :
    emptyFs GRAPH_DATA_FILEPATH = none ∧
    (graph_init sampleTags sampleHooks sampleNames emptyFs zeroGraph).1.state = 1 :=
  ⟨rfl, (graph_init_without_file sampleTags sampleHooks sampleNames emptyFs zeroGraph rfl).1⟩

/-- C4, on the code: `graph_init` never writes `mesh_change_this_frame`. On a zeroed
engine and a file system without files the flag is still false after `graph_init`, and the
first `graph_render` invokes no mesh emission and uploads zero bytes. -/
theorem graph_init_leaves_dirty_flag_unset :
    (graph_init sampleTags sampleHooks sampleNames emptyFs zeroGraph).1.mesh_change_this_frame
      = false ∧
    meshCalls (graph_render sampleTags sampleHooks
      (graph_init sampleTags sampleHooks sampleNames emptyFs zeroGraph).1).2 = [] ∧
    uploadSizes GL_ARRAY_BUFFER (graph_render sampleTags sampleHooks
      (graph_init sampleTags sampleHooks sampleNames emptyFs zeroGraph).1).2 = [0] := by
  decide

/-- The dirty flag after `graph_init` is the one the engine structure held before. -/
theorem graph_init_mesh_change_this_frame {V : Type} (tags : GraphStateTags)
    (hooks : Hooks V) (names : GLNames) (fs : FileSystem) (self : Graph V) :
    (graph_init tags hooks names fs self).1.mesh_change_this_frame =
      self.mesh_change_this_frame := by
  simp only [graph_init, graph_deserialize]
  split <;> rfl

/-! ## Lemmas on input handling and rendering -/

theorem graph_handle_inputs_cases {V : Type} (tags : GraphStateTags) (hooks : Hooks V)
    (keyboard : Keyboard) (self : Graph V) :
    (∃ v, graph_handle_inputs tags hooks keyboard self =
      (hooks.state_change v { self with state := tags.tag v }, [Call.state_change v])) ∨
    graph_handle_inputs tags hooks keyboard self = (self, []) := by
  unfold graph_handle_inputs
  split
  · exact Or.inl ⟨Variant.bezier, rfl⟩
  · split
    · exact Or.inl ⟨Variant.linear, rfl⟩
    · split
      · exact Or.inl ⟨Variant.quadratic, rfl⟩
      · split
        · exact Or.inl ⟨Variant.cubic, rfl⟩
        · exact Or.inr rfl

theorem meshCalls_append (a b : List Call) :
    meshCalls (a ++ b) = meshCalls a ++ meshCalls b := by
  induction a with
  | nil => rfl
  | cons c cs ih => cases c <;> simp [meshCalls, ih]

theorem updateCalls_append (a b : List Call) :
    updateCalls (a ++ b) = updateCalls a ++ updateCalls b := by
  induction a with
  | nil => rfl
  | cons c cs ih => cases c <;> simp [updateCalls, ih]

theorem meshCalls_graph_render_draw {V : Type} (g : Graph V) :
    meshCalls (graph_render_draw g) = [] := by
  simp [graph_render_draw, vbo_buffer, vbo_bind, meshCalls]

theorem meshCalls_graph_render {V : Type} (tags : GraphStateTags) (hooks : Hooks V)
    (self : Graph V) :
    meshCalls (graph_render tags hooks self).2 =
      meshCalls (graph_render_rebuild tags hooks self).2 := by
  simp [graph_render, meshCalls_append, meshCalls_graph_render_draw, meshCalls]

theorem graph_render_rebuild_clean {V : Type} (tags : GraphStateTags) (hooks : Hooks V)
    (self : Graph V) (hflag : self.mesh_change_this_frame = false) :
    graph_render_rebuild tags hooks self = (self, []) := by
  simp [graph_render_rebuild, hflag]

theorem graph_render_rebuild_tag {V : Type} (tags : GraphStateTags) (hooks : Hooks V)
    (self : Graph V) (hd : tags.Distinct) (hflag : self.mesh_change_this_frame = true)
    (v : Variant) (hs : self.state = tags.tag v) :
    graph_render_rebuild tags hooks self =
      ({ hooks.mesh v (graph_mesh_prepare self) with mesh_change_this_frame := false },
        [Call.mesh v]) := by
  obtain ⟨h1, h2, h3, h4, h5, h6⟩ := hd
  cases v <;>
    simp [graph_render_rebuild, hflag, graph_mesh_prepare, hs, GraphStateTags.tag,
      Hooks.mesh, h1, h2, h3, h4, h5, h6, Ne.symm h1, Ne.symm h2, Ne.symm h3, Ne.symm h4,
      Ne.symm h5, Ne.symm h6]

theorem graph_render_rebuild_unknown {V : Type} (tags : GraphStateTags) (hooks : Hooks V)
    (self : Graph V) (hflag : self.mesh_change_this_frame = true)
    (hs : ¬ tags.Valid self.state) :
    graph_render_rebuild tags hooks self =
      ({ hooks.bezier_mesh (graph_mesh_prepare self) with mesh_change_this_frame := false },
        [Call.mesh Variant.bezier]) := by
  simp only [GraphStateTags.Valid, not_or] at hs
  obtain ⟨h1, h2, h3, h4⟩ := hs
  simp [graph_render_rebuild, hflag, graph_mesh_prepare, h1, h2, h3, h4]

theorem graph_render_rebuild_flag {V : Type} (tags : GraphStateTags) (hooks : Hooks V)
    (self : Graph V) :
    (graph_render_rebuild tags hooks self).1.mesh_change_this_frame = false := by
  unfold graph_render_rebuild
  split
  · rfl
  · simpa using ‹¬ self.mesh_change_this_frame = true›

theorem graph_render_rebuild_once {V : Type} (tags : GraphStateTags) (hooks : Hooks V)
    (self : Graph V) (hflag : self.mesh_change_this_frame = true) :
    (meshCalls (graph_render_rebuild tags hooks self).2).length = 1 := by
  unfold graph_render_rebuild
  rw [if_pos hflag]
  dsimp only
  split_ifs <;> rfl

theorem graph_render_clean {V : Type} (tags : GraphStateTags) (hooks : Hooks V)
    (self : Graph V) (hflag : self.mesh_change_this_frame = false) :
    (graph_render tags hooks self).1 = self ∧
    meshCalls (graph_render tags hooks self).2 = [] := by
  rw [meshCalls_graph_render]
  simp [graph_render, graph_render_rebuild_clean tags hooks self hflag, meshCalls]

/-! ## Rendering -/

/-- C9: with the dirty flag false `graph_render` returns the engine unchanged (so counts,
tag and flag are as before), invokes no mesh emission, and its calls are exactly the five
renderer calls, both buffer uploads with the byte lengths of the current counts, the
attribute declaration, the binds and the draw call with the current index count. With the
dirty flag true it runs exactly one mesh emission, that of the active variant (Bezier for
a tag that is none of the four), on the engine whose two counts were reset to zero, and
returns the result with the dirty flag false. -/
theorem graph_render_by_dirty_flag {V : Type} (tags : GraphStateTags) (hooks : Hooks V)
    (self : Graph V) (hd : tags.Distinct) :
    (self.mesh_change_this_frame = false →
      (graph_render tags hooks self).1 = self ∧
      meshCalls (graph_render tags hooks self).2 = [] ∧
      (graph_render tags hooks self).2 =
        [Call.glEnable GL_MULTISAMPLE, Call.renderer_use_shader,
          Call.renderer_set_view_proj, Call.shader_uniform_mat4, Call.shader_uniform_vec4,
          Call.glBindBuffer self.vbo.type self.vbo.handle,
          Call.glBufferData self.vbo.type ((4 * self.vertex_count) % 2 ^ 64) self.vertices
            (if self.vbo.dynamic then GL_DYNAMIC_DRAW else GL_STATIC_DRAW),
          Call.glBindBuffer self.ibo.type self.ibo.handle,
          Call.glBufferData self.ibo.type ((4 * self.index_count) % 2 ^ 64) self.indices
            (if self.ibo.dynamic then GL_DYNAMIC_DRAW else GL_STATIC_DRAW),
          Call.vao_attr self.vao.handle self.vbo.handle 0 2 GL_FLOAT 8 0,
          Call.vao_bind self.vao.handle,
          Call.glBindBuffer self.ibo.type self.ibo.handle,
          Call.glDrawElements GL_LINES (self.index_count % 2 ^ 32) GL_UNSIGNED_INT,
          Call.glDisable GL_MULTISAMPLE]) ∧
    (self.mesh_change_this_frame = true →
      (graph_mesh_prepare self).vertex_count = 0 ∧
      (graph_mesh_prepare self).index_count = 0 ∧
      (∀ v, self.state = tags.tag v →
        (graph_render tags hooks self).1 =
          { hooks.mesh v (graph_mesh_prepare self) with mesh_change_this_frame := false } ∧
        meshCalls (graph_render tags hooks self).2 = [v]) ∧
      (¬ tags.Valid self.state →
        (graph_render tags hooks self).1 =
          { hooks.bezier_mesh (graph_mesh_prepare self) with
            mesh_change_this_frame := false } ∧
        meshCalls (graph_render tags hooks self).2 = [Variant.bezier]) ∧
      (meshCalls (graph_render tags hooks self).2).length = 1 ∧
      (graph_render tags hooks self).1.mesh_change_this_frame = false) := by
  constructor
  · intro hflag
    refine ⟨(graph_render_clean tags hooks self hflag).1,
      (graph_render_clean tags hooks self hflag).2, ?_⟩
    have h64 : ∀ n : Nat, (n % 2 ^ 64 % 2 ^ 64 + 2 ^ 64 - 0 % 2 ^ 64) % 2 ^ 64 = n % 2 ^ 64 := by
      intro n
      omega
    simp [graph_render, graph_render_rebuild_clean tags hooks self hflag, graph_render_draw,
      vbo_buffer, vbo_bind, sizeof_f32, sizeof_u32, h64]
  · intro hflag
    refine ⟨rfl, rfl, ?_, ?_, ?_, ?_⟩
    · intro v hs
      rw [meshCalls_graph_render]
      simp [graph_render, graph_render_rebuild_tag tags hooks self hd hflag v hs, meshCalls]
    · intro hs
      rw [meshCalls_graph_render]
      simp [graph_render, graph_render_rebuild_unknown tags hooks self hflag hs, meshCalls]
    · rw [meshCalls_graph_render]
      exact graph_render_rebuild_once tags hooks self hflag
    · exact graph_render_rebuild_flag tags hooks self

/-- Witness of C9: a running engine with a clean mesh is returned unchanged by
`graph_render`, which still uploads 8 and 8 bytes and draws 2 elements. -/
theorem graph_render_by_dirty_flag_witness :
    sampleTags.Distinct ∧ runningGraph.mesh_change_this_frame = false ∧
    (graph_render sampleTags sampleHooks runningGraph).1 = runningGraph ∧
    meshCalls (graph_render sampleTags sampleHooks runningGraph).2 = [] :=
  ⟨by decide, rfl,
    ((graph_render_by_dirty_flag sampleTags sampleHooks runningGraph (by decide)).1 rfl).1,
    ((graph_render_by_dirty_flag sampleTags sampleHooks runningGraph (by decide)).1 rfl).2.1⟩

/-- C6: `graph_resized` followed by two `graph_render` calls rebuilds geometry exactly once.
The first `graph_render` runs one mesh emission, that of the active variant (Bezier for a
tag that is none of the four), on the engine whose counts were reset to zero, and leaves
the dirty flag false; the second runs no mesh emission and returns the engine unchanged,
counts included. -/
theorem graph_resized_rebuilds_once {V : Type} (tags : GraphStateTags) (hooks : Hooks V)
    (self : Graph V) (hd : tags.Distinct) :
    (graph_mesh_prepare (graph_resized self)).vertex_count = 0 ∧
    (graph_mesh_prepare (graph_resized self)).index_count = 0 ∧
    (∀ v, self.state = tags.tag v →
      (graph_render tags hooks (graph_resized self)).1 =
        { hooks.mesh v (graph_mesh_prepare (graph_resized self)) with
          mesh_change_this_frame := false } ∧
      meshCalls (graph_render tags hooks (graph_resized self)).2 = [v]) ∧
    (¬ tags.Valid self.state →
      (graph_render tags hooks (graph_resized self)).1 =
        { hooks.bezier_mesh (graph_mesh_prepare (graph_resized self)) with
          mesh_change_this_frame := false } ∧
      meshCalls (graph_render tags hooks (graph_resized self)).2 = [Variant.bezier]) ∧
    (meshCalls (graph_render tags hooks (graph_resized self)).2).length = 1 ∧
    (graph_render tags hooks (graph_resized self)).1.mesh_change_this_frame = false ∧
    meshCalls (graph_render tags hooks
      (graph_render tags hooks (graph_resized self)).1).2 = [] ∧
    (graph_render tags hooks (graph_render tags hooks (graph_resized self)).1).1 =
      (graph_render tags hooks (graph_resized self)).1 := by
  have hflag : (graph_resized self).mesh_change_this_frame = true := rfl
  have hclean : (graph_render tags hooks (graph_resized self)).1.mesh_change_this_frame
      = false := graph_render_rebuild_flag tags hooks (graph_resized self)
  refine ⟨rfl, rfl, ?_, ?_, ?_, hclean, (graph_render_clean tags hooks _ hclean).2,
    (graph_render_clean tags hooks _ hclean).1⟩
  · intro v hs
    have hs2 : (graph_resized self).state = tags.tag v := hs
    rw [meshCalls_graph_render]
    simp [graph_render, graph_render_rebuild_tag tags hooks _ hd hflag v hs2, meshCalls]
  · intro hs
    have hs2 : ¬ tags.Valid (graph_resized self).state := hs
    rw [meshCalls_graph_render]
    simp [graph_render, graph_render_rebuild_unknown tags hooks _ hflag hs2, meshCalls]
  · rw [meshCalls_graph_render]
    exact graph_render_rebuild_once tags hooks _ hflag

/-- Witness of C6: on a running engine with Cubic active and a clean mesh, a resize makes
the first render call the Cubic mesh emission once, and the second render none. -/
theorem graph_resized_rebuilds_once_witness :
    sampleTags.Distinct ∧
    meshCalls (graph_render sampleTags sampleHooks (graph_resized runningGraph)).2 =
      [Variant.cubic] ∧
    meshCalls (graph_render sampleTags sampleHooks
      (graph_render sampleTags sampleHooks (graph_resized runningGraph)).1).2 = [] :=
  ⟨by decide,
    ((graph_resized_rebuilds_once sampleTags sampleHooks runningGraph (by decide)).2.2.1
      Variant.cubic rfl).2,
    (graph_resized_rebuilds_once sampleTags sampleHooks runningGraph
      (by decide)).2.2.2.2.2.2.1⟩

theorem graph_update_tag {V : Type} (tags : GraphStateTags) (hooks : Hooks V)
    (keyboard : Keyboard) (self : Graph V) (hd : tags.Distinct) (v : Variant)
    (hs : (graph_handle_inputs tags hooks keyboard self).1.state = tags.tag v) :
    graph_update tags hooks keyboard self =
      (hooks.update v (graph_handle_inputs tags hooks keyboard self).1,
        (graph_handle_inputs tags hooks keyboard self).2 ++ [Call.update v]) := by
  obtain ⟨h1, h2, h3, h4, h5, h6⟩ := hd
  cases v <;>
    simp [graph_update, hs, GraphStateTags.tag, Hooks.update, h1, h2, h3, h4, h5, h6,
      Ne.symm h1, Ne.symm h2, Ne.symm h3, Ne.symm h4, Ne.symm h5, Ne.symm h6]

theorem sampleHooks_updateKeepsTag : sampleHooks.UpdateKeepsTag := by
  intro v g
  cases v <;> rfl

theorem updateCalls_graph_handle_inputs {V : Type} (tags : GraphStateTags) (hooks : Hooks V)
    (keyboard : Keyboard) (self : Graph V) :
    updateCalls (graph_handle_inputs tags hooks keyboard self).2 = [] := by
  rcases graph_handle_inputs_cases tags hooks keyboard self with ⟨v, h⟩ | h <;>
    rw [h] <;> rfl

/-- C8: `graph_update` applies `graph_handle_inputs` and then exactly one per-frame update,
chosen by the tag as it is after input handling: the matching variant's for each of the
four tags, the Bezier variant's for any other tag value. In a frame with a transition into
a variant, that variant's update runs, on the engine its state-entry hook returned. -/
theorem graph_update_dispatch {V : Type} (tags : GraphStateTags) (hooks : Hooks V)
    (keyboard : Keyboard) (self : Graph V) (hd : tags.Distinct)
    (hk : hooks.StateChangeKeepsTag) :
    (∀ v, (graph_handle_inputs tags hooks keyboard self).1.state = tags.tag v →
      graph_update tags hooks keyboard self =
        (hooks.update v (graph_handle_inputs tags hooks keyboard self).1,
          (graph_handle_inputs tags hooks keyboard self).2 ++ [Call.update v])) ∧
    (¬ tags.Valid (graph_handle_inputs tags hooks keyboard self).1.state →
      graph_update tags hooks keyboard self =
        (hooks.bezier_update (graph_handle_inputs tags hooks keyboard self).1,
          (graph_handle_inputs tags hooks keyboard self).2 ++
            [Call.update Variant.bezier])) ∧
    (updateCalls (graph_update tags hooks keyboard self).2).length = 1 ∧
    (∀ v, (graph_handle_inputs tags hooks keyboard self).2 = [Call.state_change v] →
      graph_update tags hooks keyboard self =
        (hooks.update v (hooks.state_change v { self with state := tags.tag v }),
          [Call.state_change v, Call.update v])) := by
  refine ⟨fun v hs => graph_update_tag tags hooks keyboard self hd v hs, ?_, ?_, ?_⟩
  · intro hs
    simp only [GraphStateTags.Valid, not_or] at hs
    obtain ⟨h1, h2, h3, h4⟩ := hs
    simp [graph_update, h1, h2, h3, h4]
  · have h0 := updateCalls_graph_handle_inputs tags hooks keyboard self
    unfold graph_update
    dsimp only
    split_ifs <;> simp [updateCalls_append, h0, updateCalls]
  · intro v htrace
    rcases graph_handle_inputs_cases tags hooks keyboard self with ⟨w, h⟩ | h
    · have hw : w = v := by
        rw [h] at htrace
        simpa using htrace
      subst hw
      have hs : (graph_handle_inputs tags hooks keyboard self).1.state = tags.tag w := by
        rw [h]
        exact hk w _
      rw [graph_update_tag tags hooks keyboard self hd w hs, h]
      rfl
    · rw [h] at htrace
      simp at htrace

/-- Witness of C8: key 2 pressed on a running engine with Cubic active: the Quadratic
update runs, not the Cubic one. -/
theorem graph_update_dispatch_witness :
    sampleTags.Distinct ∧ sampleHooks.StateChangeKeepsTag ∧
    (graph_handle_inputs sampleTags sampleHooks (keyboardOf [GLFW_KEY_2])
      runningGraph).2 = [Call.state_change Variant.quadratic] ∧
    graph_update sampleTags sampleHooks (keyboardOf [GLFW_KEY_2]) runningGraph =
      (sampleHooks.update Variant.quadratic (sampleHooks.state_change Variant.quadratic
          { runningGraph with state := sampleTags.tag Variant.quadratic }),
        [Call.state_change Variant.quadratic, Call.update Variant.quadratic]) :=
  ⟨by decide, sampleHooks_stateChangeKeepsTag, by decide,
    (graph_update_dispatch sampleTags sampleHooks (keyboardOf [GLFW_KEY_2]) runningGraph
      (by decide) sampleHooks_stateChangeKeepsTag).2.2.2 Variant.quadratic (by decide)⟩

/-! ## The tag invariant -/

theorem graph_handle_inputs_state {V : Type} (tags : GraphStateTags) (hooks : Hooks V)
    (keyboard : Keyboard) (self : Graph V) (hk : hooks.StateChangeKeepsTag) :
    (∃ v, (graph_handle_inputs tags hooks keyboard self).1.state = tags.tag v) ∨
    (graph_handle_inputs tags hooks keyboard self).1.state = self.state := by
  rcases graph_handle_inputs_cases tags hooks keyboard self with ⟨v, h⟩ | h
  · left
    refine ⟨v, ?_⟩
    rw [h]
    exact hk v _
  · right
    rw [h]

theorem graph_update_state {V : Type} (tags : GraphStateTags) (hooks : Hooks V)
    (keyboard : Keyboard) (self : Graph V) (hu : hooks.UpdateKeepsTag) :
    (graph_update tags hooks keyboard self).1.state =
      (graph_handle_inputs tags hooks keyboard self).1.state := by
  have hb := hu Variant.bezier (graph_handle_inputs tags hooks keyboard self).1
  have hl := hu Variant.linear (graph_handle_inputs tags hooks keyboard self).1
  have hq := hu Variant.quadratic (graph_handle_inputs tags hooks keyboard self).1
  have hc := hu Variant.cubic (graph_handle_inputs tags hooks keyboard self).1
  simp only [Hooks.update] at hb hl hq hc
  unfold graph_update
  dsimp only
  split_ifs <;> assumption

theorem graph_render_state {V : Type} (tags : GraphStateTags) (hooks : Hooks V)
    (self : Graph V) (hm : hooks.MeshKeepsTag) :
    (graph_render tags hooks self).1.state = self.state := by
  have hb := hm Variant.bezier (graph_mesh_prepare self)
  have hl := hm Variant.linear (graph_mesh_prepare self)
  have hq := hm Variant.quadratic (graph_mesh_prepare self)
  have hc := hm Variant.cubic (graph_mesh_prepare self)
  simp only [Hooks.mesh] at hb hl hq hc
  have hp : (graph_mesh_prepare self).state = self.state := rfl
  simp only [graph_render, graph_render_rebuild]
  split_ifs <;> simp_all

/-- C5, against the claim as stated: with the persisted file holding the four bytes of the
word 7, which is none of the four tags, the active state after `graph_init` is 7. -/
theorem graph_init_invalid_tag :
    staleFs GRAPH_DATA_FILEPATH = some [7, 0, 0, 0] ∧
    (graph_init sampleTags sampleHooks sampleNames staleFs zeroGraph).1.state = 7 ∧
    ¬ sampleTags.Valid
      (graph_init sampleTags sampleHooks sampleNames staleFs zeroGraph).1.state := by
  decide

/-- C5, amended: after `graph_init` the active state is one of the four tags when the
persisted file is absent, is empty, or starts with the four bytes of one of the four tags;
and validity of the active state is preserved by `graph_resized`, `graph_handle_inputs`,
`graph_update` and `graph_render`. -/
theorem graph_state_valid {V : Type} (tags : GraphStateTags) (hooks : Hooks V)
    (names : GLNames) (fs : FileSystem) (keyboard : Keyboard) (self : Graph V)
    (hr : tags.InRange) (hk : hooks.StateChangeKeepsTag) (hu : hooks.UpdateKeepsTag)
    (hm : hooks.MeshKeepsTag) :
    ((fs GRAPH_DATA_FILEPATH = none ∨ fs GRAPH_DATA_FILEPATH = some [] ∨
        ∃ v rest, fs GRAPH_DATA_FILEPATH = some (le_bytes (tags.tag v) ++ rest)) →
      tags.Valid (graph_init tags hooks names fs self).1.state) ∧
    (tags.Valid self.state →
      tags.Valid (graph_resized self).state ∧
      tags.Valid (graph_handle_inputs tags hooks keyboard self).1.state ∧
      tags.Valid (graph_update tags hooks keyboard self).1.state ∧
      tags.Valid (graph_render tags hooks self).1.state) := by
  constructor
  · rintro (h | h | ⟨v, rest, h⟩)
    · rw [graph_init_state]
      simp [filesystem_file_exists, h, tag_valid tags Variant.quadratic,
        show tags.Valid tags.GraphState_quadratic from tag_valid tags Variant.quadratic]
    · have hq : tags.GraphState_quadratic < 2 ^ 32 :=
        tag_lt_of_inRange tags hr Variant.quadratic
      rw [graph_init_state]
      simp only [filesystem_file_exists, fopen_r, h, Option.isSome_some, if_true,
        Option.getD_some]
      rw [fread_GraphState_empty _ hq]
      exact tag_valid tags Variant.quadratic
    · have hv := tag_lt_of_inRange tags hr v
      rw [graph_init_state]
      simp only [filesystem_file_exists, fopen_r, h, Option.isSome_some, if_true,
        Option.getD_some]
      rw [fread_GraphState_full, Nat.mod_eq_of_lt hv]
      exact tag_valid tags v
  · intro hvalid
    have hin : tags.Valid (graph_handle_inputs tags hooks keyboard self).1.state := by
      rcases graph_handle_inputs_state tags hooks keyboard self hk with ⟨v, h⟩ | h
      · rw [h]
        exact tag_valid tags v
      · rw [h]
        exact hvalid
    refine ⟨hvalid, hin, ?_, ?_⟩
    · rw [graph_update_state tags hooks keyboard self hu]
      exact hin
    · rw [graph_render_state tags hooks self hm]
      exact hvalid

theorem sampleHooks_meshKeepsTag : sampleHooks.MeshKeepsTag := by
  intro v g
  cases v <;> rfl

/-- Witness of C5, amended: a zeroed engine initialised on a file system without files has a
valid tag, and so has a running engine after an update frame with key 4 pressed. -/
theorem graph_state_valid_witness :
    sampleTags.InRange ∧ sampleHooks.StateChangeKeepsTag ∧ sampleHooks.UpdateKeepsTag ∧
    sampleHooks.MeshKeepsTag ∧ emptyFs GRAPH_DATA_FILEPATH = none ∧
    sampleTags.Valid runningGraph.state ∧
    sampleTags.Valid
      (graph_init sampleTags sampleHooks sampleNames emptyFs zeroGraph).1.state ∧
    sampleTags.Valid
      (graph_update sampleTags sampleHooks (keyboardOf [GLFW_KEY_4]) runningGraph).1.state :=
  ⟨by decide, sampleHooks_stateChangeKeepsTag, sampleHooks_updateKeepsTag,
    sampleHooks_meshKeepsTag, rfl, by decide,
    (graph_state_valid sampleTags sampleHooks sampleNames emptyFs (keyboardOf [GLFW_KEY_4])
      zeroGraph (by decide) sampleHooks_stateChangeKeepsTag sampleHooks_updateKeepsTag
      sampleHooks_meshKeepsTag).1 (Or.inl rfl),
    ((graph_state_valid sampleTags sampleHooks sampleNames emptyFs (keyboardOf [GLFW_KEY_4])
      runningGraph (by decide) sampleHooks_stateChangeKeepsTag sampleHooks_updateKeepsTag
      sampleHooks_meshKeepsTag).2 (by decide)).2.2.1⟩

/-! ## Upload sizes -/

/-- The byte length of the vertex upload is four times the vertex count, whatever the
engine holds, as long as the product fits 64 bits. -/
theorem graph_render_draw_vertex_bytes {V : Type} (self : Graph V)
    (h : self.vertex_count < 2 ^ 62) :
    Call.glBufferData self.vbo.type (4 * self.vertex_count) self.vertices
      (if self.vbo.dynamic then GL_DYNAMIC_DRAW else GL_STATIC_DRAW) ∈
      graph_render_draw self := by
  have h64 : 4 * self.vertex_count % 18446744073709551616 = 4 * self.vertex_count := by
    omega
  simp [graph_render_draw, vbo_buffer, vbo_bind, sizeof_f32, h64]

/-- With offset 0, `vbo_buffer` hands its `count` argument, as a `u64`, to `glBufferData`. -/
theorem vbo_buffer_offset_zero (self : VBO) (data : List Nat) (count : Nat) :
    vbo_buffer self data 0 count =
      [Call.glBindBuffer self.type self.handle,
        Call.glBufferData self.type (count % 2 ^ 64) data
          (if self.dynamic then GL_DYNAMIC_DRAW else GL_STATIC_DRAW)] := by
  have h64 : (count % 2 ^ 64 + 2 ^ 64 - 0 % 2 ^ 64) % 2 ^ 64 = count % 2 ^ 64 := by omega
  simp only [vbo_buffer, vbo_bind, h64]
  rfl

/-- Whatever 32-bit word the persisted file starts with becomes the active state. -/
theorem graph_init_takes_file_word {V : Type} (tags : GraphStateTags) (hooks : Hooks V)
    (names : GLNames) (fs : FileSystem) (self : Graph V) (n : Nat) (rest : List Nat)
    (hn : n < 2 ^ 32) (hf : fs GRAPH_DATA_FILEPATH = some (le_bytes n ++ rest)) :
    (graph_init tags hooks names fs self).1.state = n := by
  rw [graph_init_state]
  simp only [filesystem_file_exists, fopen_r, hf, Option.isSome_some, if_true,
    Option.getD_some]
  rw [fread_GraphState_full, Nat.mod_eq_of_lt hn]

/-- Whatever the numbering of the four tags, some word below 5 is none of them. -/
theorem exists_invalid_word (tags : GraphStateTags) : ∃ n, n < 5 ∧ ¬ tags.Valid n := by
  by_contra h
  push_neg at h
  have h0 := h 0 (by norm_num)
  have h1 := h 1 (by norm_num)
  have h2 := h 2 (by norm_num)
  have h3 := h 3 (by norm_num)
  have h4 := h 4 (by norm_num)
  unfold GraphStateTags.Valid at h0 h1 h2 h3 h4
  omega

end MathViz
